import Mathlib

/-!
# Verification of the EMOD malaria antibody-lineage kinetics

A shallow embedding of `src/Eradication/MalariaAntibody.cpp`.  Each antibody
lineage is a record of six fields; the per-timestep kinetics (`Decay`,
`UpdateAntibodyCapacity`, `UpdateAntibodyConcentration`), the antigen
bookkeeping (`IncreaseAntigenCount`, `ResetCounters`, `SetAntigenicPresence`,
`StimulateCytokines`) and the JSON serialization surface are translated
function by function.  Floating-point state is modelled over `ℚ`, with the
source's numeric literals carried over exactly.
-/

namespace Kernel

/-- The four concrete lineage variants of `MalariaAntibodyType::Enum`. -/
inductive MalariaAntibodyType where
  | CSP
  | MSP1
  | PfEMP1_minor
  | PfEMP1_major
deriving DecidableEq, Repr

/-- Integer code of a `MalariaAntibodyType::Enum` value, used by the
`(int) m_antibody_type` cast in `JSerialize`. -/
def MalariaAntibodyType.toInt : MalariaAntibodyType → ℤ
  | .CSP => 0
  | .MSP1 => 1
  | .PfEMP1_minor => 2
  | .PfEMP1_major => 3

/-- Partial inverse of `MalariaAntibodyType.toInt`, the
`static_cast<MalariaAntibodyType::Enum>` of the disabled deserializer. -/
def MalariaAntibodyType.ofInt (n : ℤ) : MalariaAntibodyType :=
  if n = 0 then .CSP
  else if n = 1 then .MSP1
  else if n = 2 then .PfEMP1_minor
  else .PfEMP1_major

/-- The read-only configuration fields of `SusceptibilityMalariaConfig`
consumed by `MalariaAntibody.cpp`. -/
structure SusceptibilityMalariaConfig where
  memory_level : ℚ
  hyperimmune_decay_rate : ℚ
  antibody_csp_decay_days : ℚ
  MSP1_antibody_growthrate : ℚ
  antibody_stimulation_c50 : ℚ
  minimum_adapted_response : ℚ
  non_specific_growth : ℚ
  antibody_capacity_growthrate : ℚ
deriving DecidableEq, Repr

/-- The mutable state of one `MalariaAntibody` lineage: the six serialized
fields.  `m_antigen_count` is an `int64_t` in the source, modelled as `ℤ`. -/
structure MalariaAntibody where
  m_antibody_type : MalariaAntibodyType
  m_antibody_variant : ℤ
  m_antibody_capacity : ℚ
  m_antibody_concentration : ℚ
  m_antigen_count : ℤ
  m_antigen_present : Bool
deriving DecidableEq, Repr

/-- Modelled from the spec: `Sigmoid::basic_sigmoid` lives in
`MathFunctions.h`, which is not part of the excerpt; the spec defines it as
`sigmoid(c50, x) = x / (x + c50)` (`ℚ` division, so a zero denominator
yields `0`). -/
def Sigmoid.basic_sigmoid (threshold x : ℚ) : ℚ :=
  x / (x + threshold)

/-- Source `MalariaAntibody::Initialize`: stamps identity and initial kinetic state
on a lineage whose constructor already set `m_antigen_count = 0` and
`m_antigen_present = false`. -/
def MalariaAntibody.Initialize (type : MalariaAntibodyType) (variant : ℤ)
    (capacity concentration : ℚ) : MalariaAntibody :=
  { m_antibody_type := type
    m_antibody_variant := variant
    m_antibody_capacity := capacity
    m_antibody_concentration := concentration
    m_antigen_count := 0
    m_antigen_present := false }

/-- Source `MalariaAntibody::Decay`: concentration decays by the twenty-day constant
`0.05` when above the non-trivial threshold `1e-7`; capacity relaxes toward
`memory_level` when above it.  The two updates are independent. -/
def MalariaAntibody.Decay (dt : ℚ) (params : SusceptibilityMalariaConfig)
    (s : MalariaAntibody) : MalariaAntibody :=
  let conc :=
    if s.m_antibody_concentration > 0.0000001 then
      s.m_antibody_concentration - s.m_antibody_concentration * 0.05 * dt
    else s.m_antibody_concentration
  let cap :=
    if s.m_antibody_capacity > params.memory_level then
      s.m_antibody_capacity -
        (s.m_antibody_capacity - params.memory_level) *
          params.hyperimmune_decay_rate * dt
    else s.m_antibody_capacity
  { s with m_antibody_concentration := conc, m_antibody_capacity := cap }

/-- Source `MalariaAntibodyCSP::Decay`: when concentration exceeds capacity (after a
boosting event) it decays on its own time constant, bypassing the base rule;
otherwise it delegates to `MalariaAntibody::Decay`. -/
def MalariaAntibodyCSP.Decay (dt : ℚ) (params : SusceptibilityMalariaConfig)
    (s : MalariaAntibody) : MalariaAntibody :=
  if s.m_antibody_concentration > s.m_antibody_capacity then
    { s with m_antibody_concentration :=
        s.m_antibody_concentration -
          s.m_antibody_concentration * dt / params.antibody_csp_decay_days }
  else
    MalariaAntibody.Decay dt params s

/-- Source `MalariaAntibody::StimulateCytokines`: returns the cytokine signal and
leaves the state untouched (the body is a single `return` expression). -/
def MalariaAntibody.StimulateCytokines (dt inv_uL_blood : ℚ)
    (s : MalariaAntibody) : ℚ × MalariaAntibody :=
  ((1 - s.m_antibody_concentration) * (s.m_antigen_count : ℚ) * inv_uL_blood, s)

/-- Source `MalariaAntibody::UpdateAntibodyCapacity(dt, params, inv_uL_blood)`: the
MSP growth law, then rapid B-cell proliferation above `0.4`, then the clamp
to `1.0`. -/
def MalariaAntibody.UpdateAntibodyCapacity (dt : ℚ)
    (params : SusceptibilityMalariaConfig) (inv_uL_blood : ℚ)
    (s : MalariaAntibody) : MalariaAntibody :=
  let growth_rate := params.MSP1_antibody_growthrate
  let threshold := params.antibody_stimulation_c50
  let cap1 := s.m_antibody_capacity +
    growth_rate * (1 - s.m_antibody_capacity) *
      Sigmoid.basic_sigmoid threshold ((s.m_antigen_count : ℚ) * inv_uL_blood)
  let cap2 := if cap1 > 0.4 then cap1 + (1 - cap1) * 0.33 * dt else cap1
  let cap3 := if cap2 > 1 then 1 else cap2
  { s with m_antibody_capacity := cap3 }

/-- Source `MalariaAntibody::UpdateAntibodyCapacity(dt, growth_rate)`: the
two-argument overload, a linear-saturating step with the clamp to `1.0`. -/
def MalariaAntibody.UpdateAntibodyCapacityGrowthRate (dt growth_rate : ℚ)
    (s : MalariaAntibody) : MalariaAntibody :=
  let cap1 := s.m_antibody_capacity +
    growth_rate * dt * (1 - s.m_antibody_capacity)
  let cap2 := if cap1 > 1 then 1 else cap1
  { s with m_antibody_capacity := cap2 }

/-- Source `MalariaAntibodyPfEMP1Minor::UpdateAntibodyCapacity`: two-regime law with
the clamp to `1.0` applied after either branch. -/
def MalariaAntibodyPfEMP1Minor.UpdateAntibodyCapacity (dt : ℚ)
    (params : SusceptibilityMalariaConfig) (inv_uL_blood : ℚ)
    (s : MalariaAntibody) : MalariaAntibody :=
  let min_stimulation :=
    params.antibody_stimulation_c50 * params.minimum_adapted_response
  let growth_rate :=
    params.antibody_capacity_growthrate * params.non_specific_growth
  let threshold := params.antibody_stimulation_c50
  let cap1 :=
    if s.m_antibody_capacity ≤ 0.4 then
      s.m_antibody_capacity + growth_rate * dt * (1 - s.m_antibody_capacity) *
        Sigmoid.basic_sigmoid threshold
          ((s.m_antigen_count : ℚ) * inv_uL_blood + min_stimulation)
    else
      s.m_antibody_capacity + (1 - s.m_antibody_capacity) * 0.33 * dt
  let cap2 := if cap1 > 1 then 1 else cap1
  { s with m_antibody_capacity := cap2 }

/-- Source `MalariaAntibodyPfEMP1Major::UpdateAntibodyCapacity`: like the Minor law
but with an unscaled growth rate, and with the clamp to `1.0` applied only
inside the below-threshold branch. -/
def MalariaAntibodyPfEMP1Major.UpdateAntibodyCapacity (dt : ℚ)
    (params : SusceptibilityMalariaConfig) (inv_uL_blood : ℚ)
    (s : MalariaAntibody) : MalariaAntibody :=
  let min_stimulation :=
    params.antibody_stimulation_c50 * params.minimum_adapted_response
  let growth_rate := params.antibody_capacity_growthrate
  let threshold := params.antibody_stimulation_c50
  let cap2 :=
    if s.m_antibody_capacity ≤ 0.4 then
      let cap1 :=
        s.m_antibody_capacity + growth_rate * dt * (1 - s.m_antibody_capacity) *
          Sigmoid.basic_sigmoid threshold
            ((s.m_antigen_count : ℚ) * inv_uL_blood + min_stimulation)
      if cap1 > 1 then 1 else cap1
    else
      s.m_antibody_capacity + (1 - s.m_antibody_capacity) * 0.33 * dt
  { s with m_antibody_capacity := cap2 }

/-- Source `MalariaAntibody::UpdateAntibodyConcentration`: release toward capacity
once capacity passes `0.3`, then clamp concentration to at most capacity. -/
def MalariaAntibody.UpdateAntibodyConcentration (dt : ℚ)
    (params : SusceptibilityMalariaConfig) (s : MalariaAntibody) :
    MalariaAntibody :=
  let conc1 :=
    if s.m_antibody_capacity > 0.3 then
      s.m_antibody_concentration +
        (s.m_antibody_capacity - s.m_antibody_concentration) * 4 * dt
    else s.m_antibody_concentration
  let conc2 := if conc1 > s.m_antibody_capacity then s.m_antibody_capacity
    else conc1
  { s with m_antibody_concentration := conc2 }

/-- Source `MalariaAntibodyCSP::UpdateAntibodyConcentration`: same asymmetric rule
as `MalariaAntibodyCSP::Decay` when concentration exceeds capacity, else the
base release law. -/
def MalariaAntibodyCSP.UpdateAntibodyConcentration (dt : ℚ)
    (params : SusceptibilityMalariaConfig) (s : MalariaAntibody) :
    MalariaAntibody :=
  if s.m_antibody_concentration > s.m_antibody_capacity then
    { s with m_antibody_concentration :=
        s.m_antibody_concentration -
          s.m_antibody_concentration * dt / params.antibody_csp_decay_days }
  else
    MalariaAntibody.UpdateAntibodyConcentration dt params s

/-- Source `MalariaAntibody::ResetCounters`. -/
def MalariaAntibody.ResetCounters (s : MalariaAntibody) : MalariaAntibody :=
  { s with m_antigen_present := false, m_antigen_count := 0 }

/-- Source `MalariaAntibody::IncreaseAntigenCount`: positive counts accumulate and
set the presence flag; non-positive counts are ignored. -/
def MalariaAntibody.IncreaseAntigenCount (antigenCount : ℤ)
    (s : MalariaAntibody) : MalariaAntibody :=
  if antigenCount > 0 then
    { s with m_antigen_count := s.m_antigen_count + antigenCount
             m_antigen_present := true }
  else s

/-- Source `MalariaAntibody::SetAntigenicPresence`. -/
def MalariaAntibody.SetAntigenicPresence (antigenPresent : Bool)
    (s : MalariaAntibody) : MalariaAntibody :=
  { s with m_antigen_present := antigenPresent }

/-- Virtual dispatch of `Decay`: only `MalariaAntibodyCSP` overrides it. -/
def decayVirtual (dt : ℚ) (params : SusceptibilityMalariaConfig)
    (s : MalariaAntibody) : MalariaAntibody :=
  match s.m_antibody_type with
  | .CSP => MalariaAntibodyCSP.Decay dt params s
  | _ => MalariaAntibody.Decay dt params s

/-- Virtual dispatch of the three-argument `UpdateAntibodyCapacity`: the two
PfEMP1 variants override it; CSP and MSP use the base law. -/
def updateAntibodyCapacityVirtual (dt : ℚ)
    (params : SusceptibilityMalariaConfig) (inv_uL_blood : ℚ)
    (s : MalariaAntibody) : MalariaAntibody :=
  match s.m_antibody_type with
  | .PfEMP1_minor =>
      MalariaAntibodyPfEMP1Minor.UpdateAntibodyCapacity dt params inv_uL_blood s
  | .PfEMP1_major =>
      MalariaAntibodyPfEMP1Major.UpdateAntibodyCapacity dt params inv_uL_blood s
  | _ => MalariaAntibody.UpdateAntibodyCapacity dt params inv_uL_blood s

/-- Virtual dispatch of `UpdateAntibodyConcentration`: only
`MalariaAntibodyCSP` overrides it. -/
def updateAntibodyConcentrationVirtual (dt : ℚ)
    (params : SusceptibilityMalariaConfig) (s : MalariaAntibody) :
    MalariaAntibody :=
  match s.m_antibody_type with
  | .CSP => MalariaAntibodyCSP.UpdateAntibodyConcentration dt params s
  | _ => MalariaAntibody.UpdateAntibodyConcentration dt params s

/-- Source `MalariaAntibodyCSP::CreateAntibody`. -/
def MalariaAntibodyCSP.CreateAntibody (variant : ℤ) (capacity : ℚ) :
    MalariaAntibody :=
  MalariaAntibody.Initialize .CSP variant capacity 0

/-- Source `MalariaAntibodyMSP::CreateAntibody`. -/
def MalariaAntibodyMSP.CreateAntibody (variant : ℤ) (capacity : ℚ) :
    MalariaAntibody :=
  MalariaAntibody.Initialize .MSP1 variant capacity 0

/-- Source `MalariaAntibodyPfEMP1Minor::CreateAntibody`. -/
def MalariaAntibodyPfEMP1Minor.CreateAntibody (variant : ℤ) (capacity : ℚ) :
    MalariaAntibody :=
  MalariaAntibody.Initialize .PfEMP1_minor variant capacity 0

/-- Source `MalariaAntibodyPfEMP1Major::CreateAntibody`. -/
def MalariaAntibodyPfEMP1Major.CreateAntibody (variant : ℤ) (capacity : ℚ) :
    MalariaAntibody :=
  MalariaAntibody.Initialize .PfEMP1_major variant capacity 0

/-- The structured record written by `MalariaAntibody::JSerialize`: exactly
the six fields, with the type serialized through its integer cast. -/
structure AntibodyRecord where
  m_antibody_capacity : ℚ
  m_antibody_concentration : ℚ
  m_antigen_count : ℤ
  m_antigen_present : Bool
  m_antibody_type : ℤ
  m_antibody_variant : ℤ
deriving DecidableEq, Repr

/-- Source `MalariaAntibody::JSerialize`: inserts the six fields into the record.
All four concrete variants delegate here unchanged. -/
def MalariaAntibody.JSerialize (s : MalariaAntibody) : AntibodyRecord :=
  { m_antibody_capacity := s.m_antibody_capacity
    m_antibody_concentration := s.m_antibody_concentration
    m_antigen_count := s.m_antigen_count
    m_antigen_present := s.m_antigen_present
    m_antibody_type := s.m_antibody_type.toInt
    m_antibody_variant := s.m_antibody_variant }

/-- Source `MalariaAntibody::JDeserialize`: the entire field-restoring body is
compiled out by a disabled preprocessor block (`if 0`), so the method reads
nothing from the record and leaves the target lineage unchanged.  All four
concrete variants delegate here unchanged. -/
def MalariaAntibody.JDeserialize (root : AntibodyRecord)
    (s : MalariaAntibody) : MalariaAntibody :=
  s

/-- The disabled body of `MalariaAntibody::JDeserialize` as written in the
source: it would restore every serialized field from the record. -/
def MalariaAntibody.JDeserializeDisabledBody (root : AntibodyRecord)
    (s : MalariaAntibody) : MalariaAntibody :=
  { m_antibody_capacity := root.m_antibody_capacity
    m_antibody_concentration := root.m_antibody_concentration
    m_antigen_count := root.m_antigen_count
    m_antigen_present := root.m_antigen_present
    m_antibody_type := MalariaAntibodyType.ofInt root.m_antibody_type
    m_antibody_variant := root.m_antibody_variant }

/-! ## Helper lemmas -/

/-- The source clamp `if (x > 1.0) x = 1.0` equals taking the minimum with 1. -/
lemma clamp_one_eq_min (x : ℚ) : (if x > 1 then 1 else x) = min x 1 := by
  rcases le_or_lt x 1 with h | h
  · rw [if_neg (not_lt.mpr h), min_eq_left h]
  · rw [if_pos h, min_eq_right h.le]

lemma basic_sigmoid_nonneg {c x : ℚ} (hc : 0 ≤ c) (hx : 0 ≤ x) :
    0 ≤ Sigmoid.basic_sigmoid c x :=
  div_nonneg hx (by linarith)

lemma basic_sigmoid_le_one {c x : ℚ} (hc : 0 ≤ c) (hx : 0 ≤ x) :
    Sigmoid.basic_sigmoid c x ≤ 1 := by
  unfold Sigmoid.basic_sigmoid
  rcases eq_or_lt_of_le (add_nonneg hx hc) with h | h
  · rw [← h, div_zero]
    norm_num
  · rw [div_le_one h]
    linarith

/-! ## Claims -/

/-- C1: the round trip export-then-import does NOT reproduce the original
fields, because the field-restoring body of `MalariaAntibody::JDeserialize`
is compiled out by a disabled preprocessor block, leaving the import a
no-op.  Concretely: a CSP lineage with capacity `3/4` is serialized and then
imported into a fresh CSP lineage created with capacity `0`; the import
leaves the fresh lineage unchanged, its capacity stays `0 ≠ 3/4`.  The
disabled body, had it been enabled, would have restored all six fields. -/
theorem claim_C1_roundtrip_fails :
    MalariaAntibody.JDeserialize
        (MalariaAntibody.JSerialize ⟨.CSP, 7, 3/4, 1/2, 3, true⟩)
        (MalariaAntibodyCSP.CreateAntibody 7 0) =
      MalariaAntibodyCSP.CreateAntibody 7 0 ∧
    (MalariaAntibodyCSP.CreateAntibody 7 0).m_antibody_capacity = 0 ∧
    ((0 : ℚ) ≠ 3/4) ∧
    MalariaAntibody.JDeserializeDisabledBody
        (MalariaAntibody.JSerialize ⟨.CSP, 7, 3/4, 1/2, 3, true⟩)
        (MalariaAntibodyCSP.CreateAntibody 7 0) =
      (⟨.CSP, 7, 3/4, 1/2, 3, true⟩ : MalariaAntibody) := by
  refine ⟨rfl, rfl, by norm_num, ?_⟩
  simp [MalariaAntibody.JDeserializeDisabledBody, MalariaAntibody.JSerialize,
    MalariaAntibodyCSP.CreateAntibody, MalariaAntibody.Initialize,
    MalariaAntibodyType.ofInt, MalariaAntibodyType.toInt]

/-- C7: the base `Decay` multiplies concentration by `1 - 0.05 * dt` exactly
when the old concentration exceeds `1e-7` (else leaves it), and relaxes
capacity toward `memory_level` exactly when the old capacity exceeds it
(else leaves it); in particular concentration `0.5` with `dt = 1` decays to
`0.475`. -/
theorem claim_C7_base_decay (dt : ℚ) (params : SusceptibilityMalariaConfig)
    (s : MalariaAntibody) :
    (MalariaAntibody.Decay dt params s).m_antibody_concentration =
      (if s.m_antibody_concentration > 0.0000001 then
        s.m_antibody_concentration - s.m_antibody_concentration * 0.05 * dt
      else s.m_antibody_concentration) ∧
    (MalariaAntibody.Decay dt params s).m_antibody_capacity =
      (if s.m_antibody_capacity > params.memory_level then
        s.m_antibody_capacity -
          (s.m_antibody_capacity - params.memory_level) *
            params.hyperimmune_decay_rate * dt
      else s.m_antibody_capacity) ∧
    (MalariaAntibody.Decay 1 params
        ⟨.MSP1, 0, params.memory_level, 1/2, 0, false⟩
      ).m_antibody_concentration = 0.475 := by
  refine ⟨rfl, rfl, ?_⟩
  have h : ((1:ℚ)/2) > 0.0000001 := by norm_num
  simp only [MalariaAntibody.Decay, h, if_pos]
  norm_num

/-- C8: `IncreaseAntigenCount(n)` with `n > 0` adds exactly `n` to the
antigen count and sets the presence flag; with `n ≤ 0` it changes nothing. -/
theorem claim_C8_increase_antigen_count (n : ℤ) (s : MalariaAntibody) :
    (0 < n → MalariaAntibody.IncreaseAntigenCount n s =
      { s with m_antigen_count := s.m_antigen_count + n
               m_antigen_present := true }) ∧
    (n ≤ 0 → MalariaAntibody.IncreaseAntigenCount n s = s) := by
  constructor
  · intro h
    simp [MalariaAntibody.IncreaseAntigenCount, h]
  · intro h
    simp [MalariaAntibody.IncreaseAntigenCount, not_lt.mpr h]

/-- Witness for C8 at `n = 5` and `n = -5` on a concrete lineage. -/
theorem claim_C8_witness :
    ((0:ℤ) < 5 ∧
      MalariaAntibody.IncreaseAntigenCount 5 ⟨.MSP1, 3, 1/2, 1/4, 7, false⟩ =
        ⟨.MSP1, 3, 1/2, 1/4, 12, true⟩) ∧
    ((-5:ℤ) ≤ 0 ∧
      MalariaAntibody.IncreaseAntigenCount (-5) ⟨.MSP1, 3, 1/2, 1/4, 7, false⟩ =
        ⟨.MSP1, 3, 1/2, 1/4, 7, false⟩) :=
  ⟨⟨by norm_num,
    (claim_C8_increase_antigen_count 5 ⟨.MSP1, 3, 1/2, 1/4, 7, false⟩).1
      (by norm_num)⟩,
   ⟨by norm_num,
    (claim_C8_increase_antigen_count (-5) ⟨.MSP1, 3, 1/2, 1/4, 7, false⟩).2
      (by norm_num)⟩⟩

/-- C9: `StimulateCytokines` returns `(1 - concentration) * antigen_count *
inv_uL_blood` and leaves the whole state (all six fields) unchanged. -/
theorem claim_C9_stimulate_cytokines (dt inv_uL_blood : ℚ)
    (s : MalariaAntibody) :
    (MalariaAntibody.StimulateCytokines dt inv_uL_blood s).1 =
      (1 - s.m_antibody_concentration) * (s.m_antigen_count : ℚ) *
        inv_uL_blood ∧
    (MalariaAntibody.StimulateCytokines dt inv_uL_blood s).2 = s :=
  ⟨rfl, rfl⟩

/-- C3: after the base `UpdateAntibodyConcentration` the concentration never
exceeds the capacity (the final clamp guarantees it from any pre-state,
including capacity at or below the release threshold and concentration
pushed above capacity), and every non-CSP variant dispatches to that base
operation. -/
theorem claim_C3_concentration_le_capacity (dt : ℚ)
    (params : SusceptibilityMalariaConfig) (s : MalariaAntibody) :
    (MalariaAntibody.UpdateAntibodyConcentration dt params s
        ).m_antibody_concentration ≤
      (MalariaAntibody.UpdateAntibodyConcentration dt params s
        ).m_antibody_capacity ∧
    (s.m_antibody_type ≠ .CSP →
      updateAntibodyConcentrationVirtual dt params s =
        MalariaAntibody.UpdateAntibodyConcentration dt params s) := by
  constructor
  · obtain ⟨ty, var, cap, conc, cnt, pres⟩ := s
    simp only [MalariaAntibody.UpdateAntibodyConcentration]
    split_ifs with h1 h2 h3 <;> linarith
  · intro h
    cases hty : s.m_antibody_type <;>
      simp [updateAntibodyConcentrationVirtual, hty] <;>
      exact absurd hty h

/-- Witness for C3: a concrete MSP lineage dispatches to the base release
law. -/
theorem claim_C3_witness :
    (⟨.MSP1, 2, 1/5, 3/4, 0, false⟩ : MalariaAntibody).m_antibody_type ≠
        MalariaAntibodyType.CSP ∧
    updateAntibodyConcentrationVirtual 1 ⟨3/10, 1/100, 60, 1/20, 20, 1/10, 1/2, 9/100⟩
        ⟨.MSP1, 2, 1/5, 3/4, 0, false⟩ =
      MalariaAntibody.UpdateAntibodyConcentration 1
        ⟨3/10, 1/100, 60, 1/20, 20, 1/10, 1/2, 9/100⟩
        ⟨.MSP1, 2, 1/5, 3/4, 0, false⟩ :=
  ⟨by decide,
   (claim_C3_concentration_le_capacity 1
      ⟨3/10, 1/100, 60, 1/20, 20, 1/10, 1/2, 9/100⟩
      ⟨.MSP1, 2, 1/5, 3/4, 0, false⟩).2 (by decide)⟩

/-- Dispatch of `Decay` for a CSP lineage. -/
lemma decayVirtual_csp {dt : ℚ} {params : SusceptibilityMalariaConfig}
    {s : MalariaAntibody} (hty : s.m_antibody_type = .CSP) :
    decayVirtual dt params s = MalariaAntibodyCSP.Decay dt params s := by
  unfold decayVirtual
  rw [hty]

/-- Dispatch of `UpdateAntibodyConcentration` for a CSP lineage. -/
lemma updateAntibodyConcentrationVirtual_csp {dt : ℚ}
    {params : SusceptibilityMalariaConfig} {s : MalariaAntibody}
    (hty : s.m_antibody_type = .CSP) :
    updateAntibodyConcentrationVirtual dt params s =
      MalariaAntibodyCSP.UpdateAntibodyConcentration dt params s := by
  unfold updateAntibodyConcentrationVirtual
  rw [hty]

/-- C2: for a CSP lineage with concentration above capacity, both `Decay`
and `UpdateAntibodyConcentration` multiply the concentration by
`1 - dt / antibody_csp_decay_days`, leave the capacity (and all other
fields) unchanged, and do not clamp the concentration to the capacity;
with concentration at most capacity both delegate to the base-class
operations. -/
theorem claim_C2_csp_asymmetric_rule (dt : ℚ)
    (params : SusceptibilityMalariaConfig) (s : MalariaAntibody)
    (hty : s.m_antibody_type = .CSP) :
    (s.m_antibody_capacity < s.m_antibody_concentration →
      decayVirtual dt params s =
        { s with m_antibody_concentration :=
            s.m_antibody_concentration *
              (1 - dt / params.antibody_csp_decay_days) } ∧
      updateAntibodyConcentrationVirtual dt params s =
        { s with m_antibody_concentration :=
            s.m_antibody_concentration *
              (1 - dt / params.antibody_csp_decay_days) }) ∧
    (s.m_antibody_concentration ≤ s.m_antibody_capacity →
      decayVirtual dt params s = MalariaAntibody.Decay dt params s ∧
      updateAntibodyConcentrationVirtual dt params s =
        MalariaAntibody.UpdateAntibodyConcentration dt params s) := by
  have harith : s.m_antibody_concentration -
      s.m_antibody_concentration * dt / params.antibody_csp_decay_days =
      s.m_antibody_concentration *
        (1 - dt / params.antibody_csp_decay_days) := by
    ring
  constructor
  · intro h
    constructor
    · rw [decayVirtual_csp hty]
      unfold MalariaAntibodyCSP.Decay
      rw [if_pos h, harith]
    · rw [updateAntibodyConcentrationVirtual_csp hty]
      unfold MalariaAntibodyCSP.UpdateAntibodyConcentration
      rw [if_pos h, harith]
  · intro h
    constructor
    · rw [decayVirtual_csp hty]
      unfold MalariaAntibodyCSP.Decay
      rw [if_neg (not_lt.mpr h)]
    · rw [updateAntibodyConcentrationVirtual_csp hty]
      unfold MalariaAntibodyCSP.UpdateAntibodyConcentration
      rw [if_neg (not_lt.mpr h)]

/-- Witness for C2: a boosted CSP lineage with concentration `2` above
capacity `1/2` and `antibody_csp_decay_days = 60` decays to `2 * (1 - 1/60)`
under both operations. -/
theorem claim_C2_witness :
    decayVirtual 1 ⟨3/10, 1/100, 60, 1/20, 20, 1/10, 1/2, 9/100⟩
        ⟨.CSP, 1, 1/2, 2, 0, false⟩ =
      ⟨.CSP, 1, 1/2, 2 * (1 - 1 / 60), 0, false⟩ ∧
    updateAntibodyConcentrationVirtual 1
        ⟨3/10, 1/100, 60, 1/20, 20, 1/10, 1/2, 9/100⟩
        ⟨.CSP, 1, 1/2, 2, 0, false⟩ =
      ⟨.CSP, 1, 1/2, 2 * (1 - 1 / 60), 0, false⟩ :=
  (claim_C2_csp_asymmetric_rule 1 ⟨3/10, 1/100, 60, 1/20, 20, 1/10, 1/2, 9/100⟩
    ⟨.CSP, 1, 1/2, 2, 0, false⟩ rfl).1 (by norm_num)

/-- Any dispatched `Decay` changes only the two kinetic fields. -/
lemma decayVirtual_fields (dt : ℚ) (params : SusceptibilityMalariaConfig)
    (s : MalariaAntibody) :
    ∃ k c, decayVirtual dt params s =
      { s with m_antibody_capacity := k, m_antibody_concentration := c } := by
  obtain ⟨ty, var, cap, conc, cnt, pres⟩ := s
  cases ty <;>
    · simp only [decayVirtual, MalariaAntibodyCSP.Decay, MalariaAntibody.Decay]
      split_ifs <;> exact ⟨_, _, rfl⟩

/-- Any dispatched three-argument `UpdateAntibodyCapacity` changes only the
capacity. -/
lemma updateAntibodyCapacityVirtual_fields (dt : ℚ)
    (params : SusceptibilityMalariaConfig) (inv_uL_blood : ℚ)
    (s : MalariaAntibody) :
    ∃ k, updateAntibodyCapacityVirtual dt params inv_uL_blood s =
      { s with m_antibody_capacity := k } := by
  obtain ⟨ty, var, cap, conc, cnt, pres⟩ := s
  cases ty <;>
    · simp only [updateAntibodyCapacityVirtual,
        MalariaAntibody.UpdateAntibodyCapacity,
        MalariaAntibodyPfEMP1Minor.UpdateAntibodyCapacity,
        MalariaAntibodyPfEMP1Major.UpdateAntibodyCapacity]
      split_ifs <;> exact ⟨_, rfl⟩

/-- The two-argument `UpdateAntibodyCapacity` overload changes only the
capacity. -/
lemma updateAntibodyCapacityGrowthRate_fields (dt growth_rate : ℚ)
    (s : MalariaAntibody) :
    ∃ k, MalariaAntibody.UpdateAntibodyCapacityGrowthRate dt growth_rate s =
      { s with m_antibody_capacity := k } := by
  obtain ⟨ty, var, cap, conc, cnt, pres⟩ := s
  simp only [MalariaAntibody.UpdateAntibodyCapacityGrowthRate]
  split_ifs <;> exact ⟨_, rfl⟩

/-- Any dispatched `UpdateAntibodyConcentration` changes only the
concentration. -/
lemma updateAntibodyConcentrationVirtual_fields (dt : ℚ)
    (params : SusceptibilityMalariaConfig) (s : MalariaAntibody) :
    ∃ c, updateAntibodyConcentrationVirtual dt params s =
      { s with m_antibody_concentration := c } := by
  obtain ⟨ty, var, cap, conc, cnt, pres⟩ := s
  cases ty <;>
    · simp only [updateAntibodyConcentrationVirtual,
        MalariaAntibodyCSP.UpdateAntibodyConcentration,
        MalariaAntibody.UpdateAntibodyConcentration]
      split_ifs <;> exact ⟨_, rfl⟩

/-- C10: for every variant, `Decay`, both `UpdateAntibodyCapacity` overloads
and `UpdateAntibodyConcentration` leave the identity and antigen-bookkeeping
fields unchanged, and `ResetCounters` only clears the antigen bookkeeping. -/
theorem claim_C10_frame_conditions (dt growth_rate inv_uL_blood : ℚ)
    (params : SusceptibilityMalariaConfig) (s : MalariaAntibody) :
    ((decayVirtual dt params s).m_antibody_type = s.m_antibody_type ∧
     (decayVirtual dt params s).m_antibody_variant = s.m_antibody_variant ∧
     (decayVirtual dt params s).m_antigen_count = s.m_antigen_count ∧
     (decayVirtual dt params s).m_antigen_present = s.m_antigen_present) ∧
    ((updateAntibodyCapacityVirtual dt params inv_uL_blood s).m_antibody_type =
        s.m_antibody_type ∧
     (updateAntibodyCapacityVirtual dt params inv_uL_blood s
        ).m_antibody_variant = s.m_antibody_variant ∧
     (updateAntibodyCapacityVirtual dt params inv_uL_blood s
        ).m_antigen_count = s.m_antigen_count ∧
     (updateAntibodyCapacityVirtual dt params inv_uL_blood s
        ).m_antigen_present = s.m_antigen_present) ∧
    ((MalariaAntibody.UpdateAntibodyCapacityGrowthRate dt growth_rate s
        ).m_antibody_type = s.m_antibody_type ∧
     (MalariaAntibody.UpdateAntibodyCapacityGrowthRate dt growth_rate s
        ).m_antibody_variant = s.m_antibody_variant ∧
     (MalariaAntibody.UpdateAntibodyCapacityGrowthRate dt growth_rate s
        ).m_antigen_count = s.m_antigen_count ∧
     (MalariaAntibody.UpdateAntibodyCapacityGrowthRate dt growth_rate s
        ).m_antigen_present = s.m_antigen_present) ∧
    ((updateAntibodyConcentrationVirtual dt params s).m_antibody_type =
        s.m_antibody_type ∧
     (updateAntibodyConcentrationVirtual dt params s).m_antibody_variant =
        s.m_antibody_variant ∧
     (updateAntibodyConcentrationVirtual dt params s).m_antigen_count =
        s.m_antigen_count ∧
     (updateAntibodyConcentrationVirtual dt params s).m_antigen_present =
        s.m_antigen_present) ∧
    ((MalariaAntibody.ResetCounters s).m_antibody_capacity =
        s.m_antibody_capacity ∧
     (MalariaAntibody.ResetCounters s).m_antibody_concentration =
        s.m_antibody_concentration ∧
     (MalariaAntibody.ResetCounters s).m_antibody_type = s.m_antibody_type ∧
     (MalariaAntibody.ResetCounters s).m_antibody_variant =
        s.m_antibody_variant ∧
     (MalariaAntibody.ResetCounters s).m_antigen_count = 0 ∧
     (MalariaAntibody.ResetCounters s).m_antigen_present = false) := by
  obtain ⟨k1, c1, h1⟩ := decayVirtual_fields dt params s
  obtain ⟨k2, h2⟩ :=
    updateAntibodyCapacityVirtual_fields dt params inv_uL_blood s
  obtain ⟨k3, h3⟩ := updateAntibodyCapacityGrowthRate_fields dt growth_rate s
  obtain ⟨c4, h4⟩ := updateAntibodyConcentrationVirtual_fields dt params s
  rw [h1, h2, h3, h4]
  simp [MalariaAntibody.ResetCounters]

/-- Claim C6's reading of the base capacity-growth law: one sigmoid-driven
growth increment carrying no `dt` factor, then a rapid-proliferation
increment exactly when the grown capacity exceeds `0.4`, then a clamp of the
result to at most `1.0`. -/
def specCapacityUpdateMSP (dt : ℚ) (params : SusceptibilityMalariaConfig)
    (inv_uL_blood capacity : ℚ) (antigen_count : ℤ) : ℚ :=
  let x := (antigen_count : ℚ) * inv_uL_blood
  let grown := capacity + params.MSP1_antibody_growthrate * (1 - capacity) *
    (x / (x + params.antibody_stimulation_c50))
  let boosted := if grown > 0.4 then grown + (1 - grown) * 0.33 * dt
    else grown
  min boosted 1

/-- C6: the base/MSP `UpdateAntibodyCapacity` computes exactly the claimed
law (sigmoid growth, conditional proliferation above `0.4`, clamp to `1`),
MSP lineages dispatch to it, and on the claimed scenario (capacity `0.2`,
`antigen_count = 1000`, `inv_uL_blood = 0.01`, `dt = 1`, growth rate `0.05`,
`c50 = 20`) the new capacity is exactly `16/75`, which is below the
proliferation threshold so no proliferation term applies. -/
theorem claim_C6_base_capacity_law (dt inv_uL_blood : ℚ)
    (params : SusceptibilityMalariaConfig) (s : MalariaAntibody) :
    (s.m_antibody_type = .MSP1 →
      updateAntibodyCapacityVirtual dt params inv_uL_blood s =
        MalariaAntibody.UpdateAntibodyCapacity dt params inv_uL_blood s) ∧
    MalariaAntibody.UpdateAntibodyCapacity dt params inv_uL_blood s =
      { s with m_antibody_capacity :=
          (specCapacityUpdateMSP dt params inv_uL_blood
            s.m_antibody_capacity s.m_antigen_count) } ∧
    (MalariaAntibody.UpdateAntibodyCapacity 1
        ⟨3/10, 1/100, 60, 0.05, 20, 1/10, 1/2, 9/100⟩ 0.01
        ⟨.MSP1, 0, 0.2, 0, 1000, true⟩).m_antibody_capacity = 16/75 ∧
    (16/75 : ℚ) ≤ 0.4 := by
  refine ⟨?_, ?_, ?_, by norm_num⟩
  · intro hty
    unfold updateAntibodyCapacityVirtual
    rw [hty]
  · simp only [MalariaAntibody.UpdateAntibodyCapacity, specCapacityUpdateMSP,
      Sigmoid.basic_sigmoid, clamp_one_eq_min]
  · norm_num [MalariaAntibody.UpdateAntibodyCapacity, Sigmoid.basic_sigmoid]

/-- Witness for C6: a concrete MSP lineage dispatches to the base law. -/
theorem claim_C6_witness :
    updateAntibodyCapacityVirtual 1 ⟨3/10, 1/100, 60, 0.05, 20, 1/10, 1/2, 9/100⟩
        0.01 ⟨.MSP1, 0, 0.2, 0, 1000, true⟩ =
      MalariaAntibody.UpdateAntibodyCapacity 1
        ⟨3/10, 1/100, 60, 0.05, 20, 1/10, 1/2, 9/100⟩ 0.01
        ⟨.MSP1, 0, 0.2, 0, 1000, true⟩ :=
  (claim_C6_base_capacity_law 1 0.01 ⟨3/10, 1/100, 60, 0.05, 20, 1/10, 1/2, 9/100⟩
    ⟨.MSP1, 0, 0.2, 0, 1000, true⟩).1 rfl

/-- Dispatch of the capacity update for a PfEMP1-Minor lineage. -/
lemma updateAntibodyCapacityVirtual_minor {dt inv_uL_blood : ℚ}
    {params : SusceptibilityMalariaConfig} {s : MalariaAntibody}
    (hty : s.m_antibody_type = .PfEMP1_minor) :
    updateAntibodyCapacityVirtual dt params inv_uL_blood s =
      MalariaAntibodyPfEMP1Minor.UpdateAntibodyCapacity dt params
        inv_uL_blood s := by
  unfold updateAntibodyCapacityVirtual
  rw [hty]

/-- Claim C5 as amended: the Minor-variant two-regime law, with the sigmoid
growth branch taken when capacity is at or below the `0.4` threshold, the
rapid-proliferation increment strictly above it, and the clamp to at most
`1.0` after either branch. -/
def specCapacityUpdateMinor (dt : ℚ) (params : SusceptibilityMalariaConfig)
    (inv_uL_blood capacity : ℚ) (antigen_count : ℤ) : ℚ :=
  let growth_rate :=
    params.antibody_capacity_growthrate * params.non_specific_growth
  let min_stimulation :=
    params.antibody_stimulation_c50 * params.minimum_adapted_response
  let x := (antigen_count : ℚ) * inv_uL_blood + min_stimulation
  let stepped :=
    if capacity ≤ 0.4 then
      capacity + growth_rate * dt * (1 - capacity) *
        (x / (x + params.antibody_stimulation_c50))
    else capacity + (1 - capacity) * 0.33 * dt
  min stepped 1

/-- Counterexample to C5 as stated: at capacity exactly `0.4` the code takes
the sigmoid-growth branch (the source tests with a non-strict comparison),
not the rapid-proliferation branch the claim assigns to "at or above the
threshold".  With a zero growth rate the update leaves capacity `0.4`
unchanged, while the claimed proliferation increment would have produced
`0.4 + (1 - 0.4) * 0.33 * 1 ≠ 0.4`. -/
theorem claim_C5_counterexample :
    (0.4 : ℚ) ≥ 0.4 ∧
    (MalariaAntibodyPfEMP1Minor.UpdateAntibodyCapacity 1
        ⟨0, 0, 0, 0, 1, 0, 0, 0⟩ 1
        ⟨.PfEMP1_minor, 0, 0.4, 0, 0, false⟩).m_antibody_capacity = 0.4 ∧
    (0.4 : ℚ) ≠ 0.4 + (1 - 0.4) * 0.33 * 1 := by
  refine ⟨le_refl _, ?_, by norm_num⟩
  norm_num [MalariaAntibodyPfEMP1Minor.UpdateAntibodyCapacity,
    Sigmoid.basic_sigmoid]

/-- C5 (amended): for a PfEMP1-Minor lineage the dispatched capacity update
adds `growth_rate * dt * (1 - capacity) * sigmoid(threshold, antigen_count *
inv_uL_blood + min_stimulation)` when capacity is at or below the `0.4`
threshold (with `growth_rate = antibody_capacity_growthrate *
non_specific_growth` and `min_stimulation = antibody_stimulation_c50 *
minimum_adapted_response`), adds `(1 - capacity) * 0.33 * dt` strictly above
it, and clamps the capacity to at most `1.0` after either branch. -/
theorem claim_C5_minor_capacity_law (dt inv_uL_blood : ℚ)
    (params : SusceptibilityMalariaConfig) (s : MalariaAntibody)
    (hty : s.m_antibody_type = .PfEMP1_minor) :
    updateAntibodyCapacityVirtual dt params inv_uL_blood s =
      { s with m_antibody_capacity :=
          (specCapacityUpdateMinor dt params inv_uL_blood
            s.m_antibody_capacity s.m_antigen_count) } := by
  rw [updateAntibodyCapacityVirtual_minor hty]
  simp only [MalariaAntibodyPfEMP1Minor.UpdateAntibodyCapacity,
    specCapacityUpdateMinor, Sigmoid.basic_sigmoid, clamp_one_eq_min]

/-- Witness for C5 on a concrete Minor lineage below the threshold, with the
resulting capacity evaluated in closed form. -/
theorem claim_C5_witness :
    updateAntibodyCapacityVirtual 1 ⟨3/10, 1/100, 60, 1/20, 20, 1/10, 1/2, 9/100⟩
        1 ⟨.PfEMP1_minor, 4, 3/10, 0, 10, true⟩ =
      ⟨.PfEMP1_minor, 4,
        (specCapacityUpdateMinor 1 ⟨3/10, 1/100, 60, 1/20, 20, 1/10, 1/2, 9/100⟩
          1 (3/10) 10), 0, 10, true⟩ ∧
    specCapacityUpdateMinor 1 ⟨3/10, 1/100, 60, 1/20, 20, 1/10, 1/2, 9/100⟩
        1 (3/10) 10 = 4989/16000 :=
  ⟨claim_C5_minor_capacity_law 1 1 ⟨3/10, 1/100, 60, 1/20, 20, 1/10, 1/2, 9/100⟩
    ⟨.PfEMP1_minor, 4, 3/10, 0, 10, true⟩ rfl,
   by norm_num [specCapacityUpdateMinor]⟩

/-- Growth step followed by the proliferation test and the upper clamp keeps
the capacity in `[0, 1]` whenever the grown value is already in `[0, 1]`. -/
lemma growth_then_clamp_bounds (c1 dt : ℚ) (h0 : 0 ≤ c1) (h1 : c1 ≤ 1)
    (hdt : 0 ≤ dt) :
    0 ≤ (if (if c1 > 0.4 then c1 + (1 - c1) * 0.33 * dt else c1) > 1 then 1
      else (if c1 > 0.4 then c1 + (1 - c1) * 0.33 * dt else c1)) ∧
    (if (if c1 > 0.4 then c1 + (1 - c1) * 0.33 * dt else c1) > 1 then 1
      else (if c1 > 0.4 then c1 + (1 - c1) * 0.33 * dt else c1)) ≤ 1 := by
  have hprod : 0 ≤ (1 - c1) * dt := mul_nonneg (by linarith) hdt
  split_ifs <;> constructor <;> nlinarith [hprod]

/-- The two-regime step (non-strict threshold test) followed by the upper
clamp keeps the capacity in `[0, 1]` whenever the pre-state capacity is in
`[0, 1]` and the sigmoid-branch increment is non-negative. -/
lemma two_regime_then_clamp_bounds (cap w dt : ℚ) (h0 : 0 ≤ cap)
    (h1 : cap ≤ 1) (hw : 0 ≤ w) (hdt : 0 ≤ dt) :
    0 ≤ (if (if cap ≤ 0.4 then cap + w else cap + (1 - cap) * 0.33 * dt) > 1
      then 1
      else (if cap ≤ 0.4 then cap + w else cap + (1 - cap) * 0.33 * dt)) ∧
    (if (if cap ≤ 0.4 then cap + w else cap + (1 - cap) * 0.33 * dt) > 1
      then 1
      else (if cap ≤ 0.4 then cap + w else cap + (1 - cap) * 0.33 * dt)) ≤
      1 := by
  have hprod : 0 ≤ (1 - cap) * dt := mul_nonneg (by linarith) hdt
  split_ifs <;> constructor <;> nlinarith [hprod]

/-- The base (MSP) capacity update stays in `[0, 1]` when the growth-rate
parameter is bounded by `1`. -/
lemma updateAntibodyCapacity_base_bounds (dt inv_uL_blood : ℚ)
    (params : SusceptibilityMalariaConfig) (s : MalariaAntibody)
    (hcap0 : 0 ≤ s.m_antibody_capacity) (hcap1 : s.m_antibody_capacity ≤ 1)
    (hdt : 0 ≤ dt) (hinv : 0 ≤ inv_uL_blood) (hcnt : 0 ≤ s.m_antigen_count)
    (hg0 : 0 ≤ params.MSP1_antibody_growthrate)
    (hg1 : params.MSP1_antibody_growthrate ≤ 1)
    (hc50 : 0 ≤ params.antibody_stimulation_c50) :
    0 ≤ (MalariaAntibody.UpdateAntibodyCapacity dt params inv_uL_blood s
       ).m_antibody_capacity ∧
    (MalariaAntibody.UpdateAntibodyCapacity dt params inv_uL_blood s
       ).m_antibody_capacity ≤ 1 := by
  have hx : 0 ≤ (s.m_antigen_count : ℚ) * inv_uL_blood :=
    mul_nonneg (by exact_mod_cast hcnt) hinv
  have hσ0 := basic_sigmoid_nonneg hc50 hx
  have hσ1 := basic_sigmoid_le_one hc50 hx
  have hc1a : 0 ≤ s.m_antibody_capacity +
      params.MSP1_antibody_growthrate * (1 - s.m_antibody_capacity) *
        Sigmoid.basic_sigmoid params.antibody_stimulation_c50
          ((s.m_antigen_count : ℚ) * inv_uL_blood) := by
    nlinarith [mul_nonneg (mul_nonneg hg0 (by linarith :
      (0:ℚ) ≤ 1 - s.m_antibody_capacity)) hσ0]
  have hc1b : s.m_antibody_capacity +
      params.MSP1_antibody_growthrate * (1 - s.m_antibody_capacity) *
        Sigmoid.basic_sigmoid params.antibody_stimulation_c50
          ((s.m_antigen_count : ℚ) * inv_uL_blood) ≤ 1 := by
    nlinarith [mul_nonneg (mul_nonneg (by linarith : (0:ℚ) ≤ 1 -
        params.MSP1_antibody_growthrate) (by linarith :
        (0:ℚ) ≤ 1 - s.m_antibody_capacity)) hσ0,
      mul_nonneg (by linarith : (0:ℚ) ≤ 1 - s.m_antibody_capacity)
        (by linarith : (0:ℚ) ≤ 1 - Sigmoid.basic_sigmoid
          params.antibody_stimulation_c50
          ((s.m_antigen_count : ℚ) * inv_uL_blood))]
  simp only [MalariaAntibody.UpdateAntibodyCapacity]
  exact growth_then_clamp_bounds _ dt hc1a hc1b hdt

/-- The two-argument capacity-update overload stays in `[0, 1]` for any
non-negative externally supplied growth rate. -/
lemma updateAntibodyCapacityGrowthRate_bounds (dt growth_rate : ℚ)
    (s : MalariaAntibody)
    (hcap0 : 0 ≤ s.m_antibody_capacity) (hcap1 : s.m_antibody_capacity ≤ 1)
    (hdt : 0 ≤ dt) (hgr : 0 ≤ growth_rate) :
    0 ≤ (MalariaAntibody.UpdateAntibodyCapacityGrowthRate dt growth_rate s
       ).m_antibody_capacity ∧
    (MalariaAntibody.UpdateAntibodyCapacityGrowthRate dt growth_rate s
       ).m_antibody_capacity ≤ 1 := by
  simp only [MalariaAntibody.UpdateAntibodyCapacityGrowthRate]
  have h : 0 ≤ growth_rate * dt * (1 - s.m_antibody_capacity) :=
    mul_nonneg (mul_nonneg hgr hdt) (by linarith)
  split_ifs with h1 <;> constructor <;> linarith

/-- The Minor-variant capacity update stays in `[0, 1]` for any non-negative
parameters. -/
lemma updateAntibodyCapacity_minor_bounds (dt inv_uL_blood : ℚ)
    (params : SusceptibilityMalariaConfig) (s : MalariaAntibody)
    (hcap0 : 0 ≤ s.m_antibody_capacity) (hcap1 : s.m_antibody_capacity ≤ 1)
    (hdt : 0 ≤ dt) (hinv : 0 ≤ inv_uL_blood) (hcnt : 0 ≤ s.m_antigen_count)
    (hc50 : 0 ≤ params.antibody_stimulation_c50)
    (hcgr : 0 ≤ params.antibody_capacity_growthrate)
    (hnsg : 0 ≤ params.non_specific_growth)
    (hmar : 0 ≤ params.minimum_adapted_response) :
    0 ≤ (MalariaAntibodyPfEMP1Minor.UpdateAntibodyCapacity dt params
        inv_uL_blood s).m_antibody_capacity ∧
    (MalariaAntibodyPfEMP1Minor.UpdateAntibodyCapacity dt params
        inv_uL_blood s).m_antibody_capacity ≤ 1 := by
  have hx : 0 ≤ (s.m_antigen_count : ℚ) * inv_uL_blood +
      params.antibody_stimulation_c50 * params.minimum_adapted_response :=
    add_nonneg (mul_nonneg (by exact_mod_cast hcnt) hinv)
      (mul_nonneg hc50 hmar)
  have hσ0 := basic_sigmoid_nonneg hc50 hx
  have hw : 0 ≤ params.antibody_capacity_growthrate *
      params.non_specific_growth * dt * (1 - s.m_antibody_capacity) *
      Sigmoid.basic_sigmoid params.antibody_stimulation_c50
        ((s.m_antigen_count : ℚ) * inv_uL_blood +
          params.antibody_stimulation_c50 *
            params.minimum_adapted_response) :=
    mul_nonneg (mul_nonneg (mul_nonneg (mul_nonneg hcgr hnsg) hdt)
      (by linarith)) hσ0
  simp only [MalariaAntibodyPfEMP1Minor.UpdateAntibodyCapacity]
  exact two_regime_then_clamp_bounds s.m_antibody_capacity _ dt hcap0 hcap1
    hw hdt

/-- The Major-variant capacity update never goes below `0` for non-negative
parameters (the rapid-proliferation branch has no upper clamp). -/
lemma updateAntibodyCapacity_major_lower_bound (dt inv_uL_blood : ℚ)
    (params : SusceptibilityMalariaConfig) (s : MalariaAntibody)
    (hcap0 : 0 ≤ s.m_antibody_capacity) (hcap1 : s.m_antibody_capacity ≤ 1)
    (hdt : 0 ≤ dt) (hinv : 0 ≤ inv_uL_blood) (hcnt : 0 ≤ s.m_antigen_count)
    (hc50 : 0 ≤ params.antibody_stimulation_c50)
    (hcgr : 0 ≤ params.antibody_capacity_growthrate)
    (hmar : 0 ≤ params.minimum_adapted_response) :
    0 ≤ (MalariaAntibodyPfEMP1Major.UpdateAntibodyCapacity dt params
        inv_uL_blood s).m_antibody_capacity := by
  have hx : 0 ≤ (s.m_antigen_count : ℚ) * inv_uL_blood +
      params.antibody_stimulation_c50 * params.minimum_adapted_response :=
    add_nonneg (mul_nonneg (by exact_mod_cast hcnt) hinv)
      (mul_nonneg hc50 hmar)
  have hσ0 := basic_sigmoid_nonneg hc50 hx
  have hw : 0 ≤ params.antibody_capacity_growthrate * dt *
      (1 - s.m_antibody_capacity) *
      Sigmoid.basic_sigmoid params.antibody_stimulation_c50
        ((s.m_antigen_count : ℚ) * inv_uL_blood +
          params.antibody_stimulation_c50 *
            params.minimum_adapted_response) :=
    mul_nonneg (mul_nonneg (mul_nonneg hcgr hdt) (by linarith)) hσ0
  have hprod : 0 ≤ (1 - s.m_antibody_capacity) * dt :=
    mul_nonneg (by linarith) hdt
  simp only [MalariaAntibodyPfEMP1Major.UpdateAntibodyCapacity]
  split_ifs <;> nlinarith [hw, hprod]

/-- In its below-threshold branch (pre-state capacity at most `0.4`) the
Major-variant capacity update is clamped inside the branch to at most `1`. -/
lemma updateAntibodyCapacity_major_below_le_one (dt inv_uL_blood : ℚ)
    (params : SusceptibilityMalariaConfig) (s : MalariaAntibody)
    (hbelow : s.m_antibody_capacity ≤ 0.4) :
    (MalariaAntibodyPfEMP1Major.UpdateAntibodyCapacity dt params
        inv_uL_blood s).m_antibody_capacity ≤ 1 := by
  simp only [MalariaAntibodyPfEMP1Major.UpdateAntibodyCapacity]
  rw [if_pos hbelow]
  split_ifs with h <;> linarith

/-- Counterexample to C4 as stated: the base (MSP) capacity update, started
from an in-range state with non-negative `dt`, growth rate, antigen count
and `inv_uL_blood`, can leave the capacity below `0`: with capacity `0`,
growth rate `4`, `c50 = 1`, one antigen unit at `inv_uL_blood = 1` and
`dt = 10`, the sigmoid step overshoots to `2` and the proliferation step
then drags the capacity to `-13/10`; the final clamp is an upper clamp only
and keeps it. -/
theorem claim_C4_counterexample :
    (MalariaAntibody.UpdateAntibodyCapacity 10 ⟨0, 0, 0, 4, 1, 0, 0, 0⟩ 1
        ⟨.MSP1, 0, 0, 0, 1, true⟩).m_antibody_capacity = -13/10 ∧
    ¬ (0 ≤ (-13/10 : ℚ)) := by
  constructor
  · norm_num [MalariaAntibody.UpdateAntibodyCapacity, Sigmoid.basic_sigmoid]
  · norm_num

/-- C4 (amended): from a state with capacity in `[0, 1]` and non-negative
`dt`, antigen count, `inv_uL_blood` and growth-rate parameters — with the
base/MSP growth-rate parameter additionally at most `1` — every
capacity-growth update keeps the capacity in `[0, 1]`, except the
PfEMP1-Major variant's rapid-proliferation branch (pre-state capacity above
`0.4`): some admissible input reaching that branch leaves the capacity
above `1`, because the Major clamp to `1.0` sits only in the
below-threshold branch; in that below-threshold branch the Major variant
also keeps the capacity in `[0, 1]`, and its rapid-proliferation branch
still keeps it at least `0`. -/
theorem claim_C4_capacity_invariant (dt growth_rate inv_uL_blood : ℚ)
    (params : SusceptibilityMalariaConfig) (s : MalariaAntibody)
    (hcap0 : 0 ≤ s.m_antibody_capacity) (hcap1 : s.m_antibody_capacity ≤ 1)
    (hdt : 0 ≤ dt) (hinv : 0 ≤ inv_uL_blood) (hcnt : 0 ≤ s.m_antigen_count)
    (hgr : 0 ≤ growth_rate)
    (hmsp0 : 0 ≤ params.MSP1_antibody_growthrate)
    (hmsp1 : params.MSP1_antibody_growthrate ≤ 1)
    (hc50 : 0 ≤ params.antibody_stimulation_c50)
    (hcgr : 0 ≤ params.antibody_capacity_growthrate)
    (hnsg : 0 ≤ params.non_specific_growth)
    (hmar : 0 ≤ params.minimum_adapted_response) :
    (0 ≤ (MalariaAntibody.UpdateAntibodyCapacity dt params inv_uL_blood s
        ).m_antibody_capacity ∧
      (MalariaAntibody.UpdateAntibodyCapacity dt params inv_uL_blood s
        ).m_antibody_capacity ≤ 1) ∧
    (0 ≤ (MalariaAntibody.UpdateAntibodyCapacityGrowthRate dt growth_rate s
        ).m_antibody_capacity ∧
      (MalariaAntibody.UpdateAntibodyCapacityGrowthRate dt growth_rate s
        ).m_antibody_capacity ≤ 1) ∧
    (0 ≤ (MalariaAntibodyPfEMP1Minor.UpdateAntibodyCapacity dt params
        inv_uL_blood s).m_antibody_capacity ∧
      (MalariaAntibodyPfEMP1Minor.UpdateAntibodyCapacity dt params
        inv_uL_blood s).m_antibody_capacity ≤ 1) ∧
    (0 ≤ (MalariaAntibodyPfEMP1Major.UpdateAntibodyCapacity dt params
        inv_uL_blood s).m_antibody_capacity ∧
      (s.m_antibody_capacity ≤ 0.4 →
        (MalariaAntibodyPfEMP1Major.UpdateAntibodyCapacity dt params
          inv_uL_blood s).m_antibody_capacity ≤ 1)) ∧
    (∃ dt2 : ℚ, ∃ params2 : SusceptibilityMalariaConfig, ∃ inv2 : ℚ,
      ∃ s2 : MalariaAntibody,
        0 ≤ s2.m_antibody_capacity ∧ s2.m_antibody_capacity ≤ 1 ∧
        s2.m_antibody_capacity > 0.4 ∧
        0 ≤ dt2 ∧ 0 ≤ inv2 ∧ 0 ≤ s2.m_antigen_count ∧
        (MalariaAntibodyPfEMP1Major.UpdateAntibodyCapacity dt2 params2 inv2
          s2).m_antibody_capacity > 1) := by
  refine ⟨updateAntibodyCapacity_base_bounds dt inv_uL_blood params s hcap0
      hcap1 hdt hinv hcnt hmsp0 hmsp1 hc50,
    updateAntibodyCapacityGrowthRate_bounds dt growth_rate s hcap0 hcap1
      hdt hgr,
    updateAntibodyCapacity_minor_bounds dt inv_uL_blood params s hcap0
      hcap1 hdt hinv hcnt hc50 hcgr hnsg hmar,
    ⟨updateAntibodyCapacity_major_lower_bound dt inv_uL_blood params s hcap0
        hcap1 hdt hinv hcnt hc50 hcgr hmar,
      fun hbelow => updateAntibodyCapacity_major_below_le_one dt
        inv_uL_blood params s hbelow⟩,
    10, ⟨0, 0, 0, 0, 0, 0, 0, 0⟩, 0, ⟨.PfEMP1_major, 0, 1/2, 0, 0, false⟩,
    by norm_num, by norm_num, by norm_num, by norm_num, by norm_num,
    by norm_num, ?_⟩
  norm_num [MalariaAntibodyPfEMP1Major.UpdateAntibodyCapacity,
    Sigmoid.basic_sigmoid]

/-- Witness for C4 (amended) at a fully concrete admissible input whose
capacity `3/10` also lies in the Major variant's below-threshold branch. -/
theorem claim_C4_witness :
    (0 ≤ (MalariaAntibody.UpdateAntibodyCapacity 1
        ⟨3/10, 1/100, 60, 1/20, 20, 1/10, 1/2, 9/100⟩ 1
        ⟨.MSP1, 0, 3/10, 0, 2, true⟩).m_antibody_capacity ∧
      (MalariaAntibody.UpdateAntibodyCapacity 1
        ⟨3/10, 1/100, 60, 1/20, 20, 1/10, 1/2, 9/100⟩ 1
        ⟨.MSP1, 0, 3/10, 0, 2, true⟩).m_antibody_capacity ≤ 1) ∧
    (0 ≤ (MalariaAntibody.UpdateAntibodyCapacityGrowthRate 1 2
        ⟨.MSP1, 0, 3/10, 0, 2, true⟩).m_antibody_capacity ∧
      (MalariaAntibody.UpdateAntibodyCapacityGrowthRate 1 2
        ⟨.MSP1, 0, 3/10, 0, 2, true⟩).m_antibody_capacity ≤ 1) ∧
    (0 ≤ (MalariaAntibodyPfEMP1Minor.UpdateAntibodyCapacity 1
        ⟨3/10, 1/100, 60, 1/20, 20, 1/10, 1/2, 9/100⟩ 1
        ⟨.MSP1, 0, 3/10, 0, 2, true⟩).m_antibody_capacity ∧
      (MalariaAntibodyPfEMP1Minor.UpdateAntibodyCapacity 1
        ⟨3/10, 1/100, 60, 1/20, 20, 1/10, 1/2, 9/100⟩ 1
        ⟨.MSP1, 0, 3/10, 0, 2, true⟩).m_antibody_capacity ≤ 1) ∧
    (0 ≤ (MalariaAntibodyPfEMP1Major.UpdateAntibodyCapacity 1
        ⟨3/10, 1/100, 60, 1/20, 20, 1/10, 1/2, 9/100⟩ 1
        ⟨.MSP1, 0, 3/10, 0, 2, true⟩).m_antibody_capacity ∧
      ((⟨.MSP1, 0, 3/10, 0, 2, true⟩ : MalariaAntibody).m_antibody_capacity
          ≤ 0.4 →
        (MalariaAntibodyPfEMP1Major.UpdateAntibodyCapacity 1
          ⟨3/10, 1/100, 60, 1/20, 20, 1/10, 1/2, 9/100⟩ 1
          ⟨.MSP1, 0, 3/10, 0, 2, true⟩).m_antibody_capacity ≤ 1)) ∧
    (∃ dt2 : ℚ, ∃ params2 : SusceptibilityMalariaConfig, ∃ inv2 : ℚ,
      ∃ s2 : MalariaAntibody,
        0 ≤ s2.m_antibody_capacity ∧ s2.m_antibody_capacity ≤ 1 ∧
        s2.m_antibody_capacity > 0.4 ∧
        0 ≤ dt2 ∧ 0 ≤ inv2 ∧ 0 ≤ s2.m_antigen_count ∧
        (MalariaAntibodyPfEMP1Major.UpdateAntibodyCapacity dt2 params2 inv2
          s2).m_antibody_capacity > 1) :=
  claim_C4_capacity_invariant 1 2 1
    ⟨3/10, 1/100, 60, 1/20, 20, 1/10, 1/2, 9/100⟩
    ⟨.MSP1, 0, 3/10, 0, 2, true⟩
    (by norm_num) (by norm_num) (by norm_num) (by norm_num) (by norm_num)
    (by norm_num) (by norm_num) (by norm_num) (by norm_num) (by norm_num)
    (by norm_num) (by norm_num)

end Kernel
